import Mathlib

/-!
Verification of the Cartographer Rerun wrapper (`src/main.rs`).

The repository is a thin shell around the external Rerun viewer library: a
startup function (`main`), a per-frame side panel (`CartographerRerun::ui`,
`entity_db_ui`, `entity_ui`, `component_ui`) and a value formatter
(`format_arrow`).  The external library's types (arrow2 arrays, the entity
database, the network receiver) are modelled through exactly the capabilities
the wrapper code uses, following the interface the code calls; the wrapper's
own control flow is translated line by line.
-/

namespace Carto2Rerun

/-- Outcome of rendering one element of an arrow2 array with its default
display implementation, as exercised by `arrow2::array::get_display`: a null
entry, a successfully rendered string, or a formatting failure. -/
inductive ElemRender where
  | null : ElemRender
  | ok : String → ElemRender
  | err : ElemRender
deriving DecidableEq

/-- Shallow embedding of a type-erased arrow2 column value
(`&dyn arrow2::array::Array`) through the capabilities the wrapper uses:
`elems` gives the per-element display outcome (index order), `totalSizeBytes`
is `re_types::SizeBytes::total_size_bytes` (heap included), and
`slicedSizeBytes o l` is the library-determined total byte size reported for
the zero-copy slice at offset `o` of length `l`. -/
structure ArrowArray where
  elems : List ElemRender
  totalSizeBytes : Nat
  slicedSizeBytes : Nat → Nat → Nat

/-- `Array::len`: the number of elements (instances) in the column. -/
def ArrowArray.len (a : ArrowArray) : Nat :=
  a.elems.length

/-- `Array::sliced(offset, length)`: zero-copy slice; elements are the
`length` elements starting at `offset`, the reported byte size is whatever
the library reports for that slice. -/
def ArrowArray.sliced (a : ArrowArray) (offset length : Nat) : ArrowArray :=
  { elems := (a.elems.drop offset).take length
    totalSizeBytes := a.slicedSizeBytes offset length
    slicedSizeBytes := fun o l => a.slicedSizeBytes (offset + o) l }

/-- `arrow2::array::get_display(value, nullStr)` applied at index `i`: a null
entry writes the literal `nullStr`, a renderable entry writes its display
string, a formatting failure (or an out-of-range index) yields `none`
(`display(&mut string, i).is_ok()` is false). -/
def get_display (a : ArrowArray) (nullStr : String) (i : Nat) : Option String :=
  match a.elems.get? i with
  | some ElemRender.null => some nullStr
  | some (ElemRender.ok s) => some s
  | some ElemRender.err => none
  | none => none

/-- `format_arrow` from `src/main.rs`: if the value's total size is under 256
bytes, try to render element 0 with the default display (null printing as
"null") and return that string on success; otherwise fall back to the byte
count formatted as "N bytes". -/
def format_arrow (value : ArrowArray) : String :=
  if value.totalSizeBytes < 256 then
    match get_display value "null" 0 with
    | some string => string
    | none => toString value.totalSizeBytes ++ " bytes"
  else
    toString value.totalSizeBytes ++ " bytes"

/-- One egui drawing primitive issued by the panel, in issue order; container
widgets (`vertical_centered`, `collapsing`, `ScrollArea`) carry the items
drawn inside their closure. -/
inductive UiItem where
  | addSpace : UiItem
  | separator : UiItem
  | strong : String → UiItem
  | label : String → UiItem
  | verticalCentered : List UiItem → UiItem
  | collapsing : String → List UiItem → UiItem
  | scrollArea : List UiItem → UiItem

/-- One query issued against the Recording Store:
`store().all_components(timeline, entity)` or the
`query_caches().latest_at(store, query, entity, [component])` pipeline. -/
inductive StoreQuery where
  | allComponents : String → String → StoreQuery
  | latestAt : String → String → String → StoreQuery
deriving DecidableEq

/-- The active recording (`re_entity_db::EntityDb`) through the capabilities
the wrapper uses: the optional store info (its application id's display
string), the entity paths in store order, the per-entity component names on a
timeline in the order the store returns them, and the latest-at query result
(the pipeline `latest_at(...)` then `.components.get(..)` then `.raw(..)`). -/
structure EntityDb where
  storeInfo : Option String
  entityPaths : List String
  allComponents : String → String → Option (List String)
  latestAt : String → String → String → Option ArrowArray

/-- `re_log_types::Timeline::log_time()`, the always-present log-time
timeline used as the fixed query axis. -/
def log_time : String := "log_time"

/-- `component_ui`: issue the latest-at point query for the
(entity, component) pair on the timeline; on a hit, draw one label per
instance `i` in `0..len`, each formatting the one-instance slice
`data.sliced(i, 1)`; on a miss, draw nothing. Returns the drawn items and
the store queries issued. -/
def component_ui (entity_db : EntityDb) (timeline entity_path component_name : String) :
    List UiItem × List StoreQuery :=
  match entity_db.latestAt timeline entity_path component_name with
  | some data =>
      ([UiItem.scrollArea ((List.range data.len).map
          (fun i => UiItem.label (format_arrow (data.sliced i 1))))],
       [StoreQuery.latestAt timeline entity_path component_name])
  | none =>
      ([], [StoreQuery.latestAt timeline entity_path component_name])

/-- `entity_ui`: ask the store for all components of the entity on the
timeline; for each returned component name (in returned order) draw a
collapsible section labelled with the name, containing `component_ui`'s
output. -/
def entity_ui (entity_db : EntityDb) (timeline entity_path : String) :
    List UiItem × List StoreQuery :=
  match entity_db.allComponents timeline entity_path with
  | some components =>
      (components.map (fun c =>
         UiItem.collapsing c (component_ui entity_db timeline entity_path c).fst),
       StoreQuery.allComponents timeline entity_path ::
         (components.map (fun c =>
           (component_ui entity_db timeline entity_path c).snd)).flatten)
  | none =>
      ([], [StoreQuery.allComponents timeline entity_path])

/-- `entity_db_ui`: if store info is present draw the "Application ID: …"
label, then a separator, the "Entities:" heading, and a scroll area holding
one collapsible section per entity path (store order), each containing
`entity_ui`'s output on the log-time timeline. -/
def entity_db_ui (entity_db : EntityDb) : List UiItem × List StoreQuery :=
  let appIdItems : List UiItem :=
    match entity_db.storeInfo with
    | some application_id => [UiItem.label ("Application ID: " ++ application_id)]
    | none => []
  (appIdItems ++
    [UiItem.separator, UiItem.strong "Entities:",
     UiItem.scrollArea (entity_db.entityPaths.map (fun p =>
       UiItem.collapsing p (entity_ui entity_db log_time p).fst))],
   (entity_db.entityPaths.map (fun p =>
     (entity_ui entity_db log_time p).snd)).flatten)

/-- The wrapper application state, holding the embedded viewer app through
the one capability the panel uses: `recording_db()` returning the active
recording, if any. -/
structure CartographerRerun where
  recording_db : Option EntityDb

/-- `CartographerRerun::ui`: draw the fixed chrome (spacing, the centred
"Cartographer" title, a separator); then, with an active recording, delegate
to `entity_db_ui`, else draw the single "No log database loaded yet."
label. -/
def CartographerRerun.ui (app : CartographerRerun) : List UiItem × List StoreQuery :=
  let chrome : List UiItem :=
    [UiItem.addSpace, UiItem.verticalCentered [UiItem.strong "Cartographer"],
     UiItem.separator]
  match app.recording_db with
  | some entity_db =>
      let rendered := entity_db_ui entity_db
      (chrome ++ rendered.fst, rendered.snd)
  | none =>
      (chrome ++ [UiItem.label "No log database loaded yet."], [])

/-- Startup steps of `main`, in execution order. -/
inductive MainEvent where
  | setupLogging : MainEvent
  | installCrashHandlers : MainEvent
  | serve : String → Nat → MainEvent
  | runNative : String → MainEvent
deriving DecidableEq

/-- `re_sdk_comms::DEFAULT_SERVER_PORT`, the external library's fixed default
TCP port for the SDK ingestion protocol. -/
def DEFAULT_SERVER_PORT : Nat := 9876

/-- The external effects `main` invokes: `re_sdk_comms::serve` (returning a
receiver handle or a bind error) and `eframe::run_native` (the render loop,
returning on window close or a startup error). -/
structure Env where
  serve : String → Nat → Except String Nat
  runNative : String → Except String Unit

/-- `main` from `src/main.rs`: set up logging and crash handlers, bind the
network receiver on "0.0.0.0" at the default port (propagating a bind error
with `?`, without retry), then enter the render loop via `run_native` with
the "Cartographer - Rerun" window title (again propagating errors).  Returns
the trace of startup events and the process result. -/
def main (env : Env) : List MainEvent × Except String Unit :=
  let pre := [MainEvent.setupLogging, MainEvent.installCrashHandlers]
  match env.serve "0.0.0.0" DEFAULT_SERVER_PORT with
  | Except.error e =>
      (pre ++ [MainEvent.serve "0.0.0.0" DEFAULT_SERVER_PORT], Except.error e)
  | Except.ok _rx =>
      match env.runNative "Cartographer - Rerun" with
      | Except.error e =>
          (pre ++ [MainEvent.serve "0.0.0.0" DEFAULT_SERVER_PORT,
            MainEvent.runNative "Cartographer - Rerun"], Except.error e)
      | Except.ok _ =>
          (pre ++ [MainEvent.serve "0.0.0.0" DEFAULT_SERVER_PORT,
            MainEvent.runNative "Cartographer - Rerun"], Except.ok ())

/-! Concrete example values used by the witness theorems. -/

/-- A small renderable one-element array (element 0 displays as "7"). -/
def exSmall : ArrowArray :=
  { elems := [ElemRender.ok "7"], totalSizeBytes := 24,
    slicedSizeBytes := fun _ _ => 24 }

/-- A two-element array agreeing with `exSmall` at index 0 and in size. -/
def exTwo : ArrowArray :=
  { elems := [ElemRender.ok "7", ElemRender.ok "8"], totalSizeBytes := 24,
    slicedSizeBytes := fun _ _ => 24 }

/-- An over-threshold array (300 bytes). -/
def exBig : ArrowArray :=
  { elems := [ElemRender.ok "7"], totalSizeBytes := 300,
    slicedSizeBytes := fun _ _ => 300 }

/-- A small array whose element 0 is null. -/
def exNull : ArrowArray :=
  { elems := [ElemRender.null], totalSizeBytes := 16,
    slicedSizeBytes := fun _ _ => 16 }

/-- A small array whose element 0 fails to render. -/
def exErr : ArrowArray :=
  { elems := [ElemRender.err], totalSizeBytes := 16,
    slicedSizeBytes := fun _ _ => 16 }

/-- An active recording with one entity "robot" carrying components
"pos" (with data `exSmall`) and "color" (no latest-at value). -/
def exDb : EntityDb :=
  { storeInfo := some "cartographer"
    entityPaths := ["robot"]
    allComponents := fun _ e => if e = "robot" then some ["pos", "color"] else none
    latestAt := fun _ e c =>
      if e = "robot" then (if c = "pos" then some exSmall else none) else none }

/-- An application state with no active recording. -/
def exAppNone : CartographerRerun := { recording_db := none }

/-- An environment whose network bind fails. -/
def exEnvFail : Env :=
  { serve := fun _ _ => Except.error "address in use"
    runNative := fun _ => Except.ok () }

/-- An environment where both the bind and the render loop succeed. -/
def exEnvOk : Env :=
  { serve := fun _ _ => Except.ok 1
    runNative := fun _ => Except.ok () }


/-! Claim theorems. -/

/-- C1: For every value slice passed to `format_arrow`: if its total size in
bytes is strictly below 256 and rendering its natural display representation
succeeds, the returned string is that display representation (a null value at
index 0 rendering as the literal text "null"); if its total size is 256 bytes
or more, the returned string is exactly the true byte count followed by
" bytes". -/
theorem format_arrow_threshold (v : ArrowArray) :
    (v.totalSizeBytes < 256 →
      ∀ s, get_display v "null" 0 = some s → format_arrow v = s)
    ∧ (v.totalSizeBytes < 256 → v.elems.get? 0 = some ElemRender.null →
        format_arrow v = "null")
    ∧ (256 ≤ v.totalSizeBytes →
        format_arrow v = toString v.totalSizeBytes ++ " bytes") := by
  refine ⟨?_, ?_, ?_⟩
  · intro h s hs
    simp [format_arrow, h, hs]
  · intro h h0
    rw [List.get?_eq_getElem?] at h0
    simp [format_arrow, get_display, h, h0]
  · intro h
    simp [format_arrow, Nat.not_lt.mpr h]

/-- C1 witness: concrete small renderable, small null and oversized inputs. -/
theorem format_arrow_threshold_witness :
    format_arrow exSmall = "7" ∧ format_arrow exNull = "null" ∧
      format_arrow exBig = "300 bytes" :=
  ⟨(format_arrow_threshold exSmall).1 (by decide) "7" rfl,
   (format_arrow_threshold exNull).2.1 (by decide) rfl,
   (format_arrow_threshold exBig).2.2 (by decide)⟩

/-- C2: `format_arrow` is total — it returns a string on every input — and
when the internal display rendering fails for an under-threshold value the
result is the byte-count fallback string rather than an error. -/
theorem format_arrow_total (v : ArrowArray) :
    (∃ s, format_arrow v = s)
    ∧ (v.totalSizeBytes < 256 → get_display v "null" 0 = none →
        format_arrow v = toString v.totalSizeBytes ++ " bytes") := by
  refine ⟨⟨format_arrow v, rfl⟩, ?_⟩
  intro h hs
  simp [format_arrow, h, hs]

/-- C2 witness: an under-threshold value whose rendering fails formats as its
byte count. -/
theorem format_arrow_total_witness : format_arrow exErr = "16 bytes" :=
  (format_arrow_total exErr).2 (by decide) rfl

/-- C3: with no active recording (`recording_db()` is none), the panel draws
the fixed chrome followed by only the "No log database loaded yet." label and
issues zero queries against the Recording Store. -/
theorem ui_no_recording (app : CartographerRerun)
    (h : app.recording_db = none) :
    CartographerRerun.ui app =
      ([UiItem.addSpace, UiItem.verticalCentered [UiItem.strong "Cartographer"],
        UiItem.separator, UiItem.label "No log database loaded yet."],
       ([] : List StoreQuery)) := by
  simp [CartographerRerun.ui, h]

/-- C3 witness: the panel output for a concrete app with no recording. -/
theorem ui_no_recording_witness :
    CartographerRerun.ui exAppNone =
      ([UiItem.addSpace, UiItem.verticalCentered [UiItem.strong "Cartographer"],
        UiItem.separator, UiItem.label "No log database loaded yet."],
       ([] : List StoreQuery)) :=
  ui_no_recording exAppNone rfl

/-- C4: for an entity whose component listing on the timeline returns the
names `cs`, `entity_ui` draws exactly `cs.length` collapsible sections, one
per name, labelled with exactly the returned names in returned order. -/
theorem entity_ui_components (entity_db : EntityDb) (timeline entity_path : String)
    (cs : List String)
    (h : entity_db.allComponents timeline entity_path = some cs) :
    (entity_ui entity_db timeline entity_path).fst =
      cs.map (fun c =>
        UiItem.collapsing c (component_ui entity_db timeline entity_path c).fst)
    ∧ (entity_ui entity_db timeline entity_path).fst.length = cs.length := by
  constructor
  · simp [entity_ui, h]
  · simp [entity_ui, h]

/-- C4 witness: the concrete recording's "robot" entity draws one section
per returned component name, in order. -/
theorem entity_ui_components_witness :
    (entity_ui exDb log_time "robot").fst =
      ["pos", "color"].map (fun c =>
        UiItem.collapsing c (component_ui exDb log_time "robot" c).fst)
    ∧ (entity_ui exDb log_time "robot").fst.length = 2 :=
  entity_ui_components exDb log_time "robot" ["pos", "color"] rfl

/-- C5: for a component whose latest-at query yields a column `data` of
`data.len` instances, `component_ui` draws exactly one text line per instance
index `i` in `0..data.len`, in order, each produced by formatting the
one-instance slice `data.sliced i 1`. -/
theorem component_ui_instances (entity_db : EntityDb)
    (timeline entity_path component_name : String) (data : ArrowArray)
    (h : entity_db.latestAt timeline entity_path component_name = some data) :
    (component_ui entity_db timeline entity_path component_name).fst =
      [UiItem.scrollArea ((List.range data.len).map
        (fun i => UiItem.label (format_arrow (data.sliced i 1))))] := by
  simp [component_ui, h]

/-- C5 witness: the concrete "robot"/"pos" query yields `exSmall` and draws
its single instance line. -/
theorem component_ui_instances_witness :
    (component_ui exDb log_time "robot" "pos").fst =
      [UiItem.scrollArea ((List.range exSmall.len).map
        (fun i => UiItem.label (format_arrow (exSmall.sliced i 1))))] :=
  component_ui_instances exDb log_time "robot" "pos" exSmall rfl

/-- C6: for a component whose latest-at query yields no value, `component_ui`
draws nothing further (the miss is a valid state, not an error). -/
theorem component_ui_no_value (entity_db : EntityDb)
    (timeline entity_path component_name : String)
    (h : entity_db.latestAt timeline entity_path component_name = none) :
    (component_ui entity_db timeline entity_path component_name).fst = [] := by
  simp [component_ui, h]

/-- C6 witness: the concrete "robot"/"color" query yields no value and draws
nothing. -/
theorem component_ui_no_value_witness :
    (component_ui exDb log_time "robot" "color").fst = [] :=
  component_ui_no_value exDb log_time "robot" "color" rfl

/-- C7: `main` binds the network receiver on "0.0.0.0" at the fixed default
port; on bind failure it stops there — the trace holds exactly one bind
attempt, the render loop is never entered, and the error is the top-level
result — and on bind success the bind strictly precedes entering the render
loop. -/
theorem main_bind (env : Env) :
    (∀ e, env.serve "0.0.0.0" DEFAULT_SERVER_PORT = Except.error e →
      main env = ([MainEvent.setupLogging, MainEvent.installCrashHandlers,
        MainEvent.serve "0.0.0.0" DEFAULT_SERVER_PORT], Except.error e))
    ∧ (∀ rx, env.serve "0.0.0.0" DEFAULT_SERVER_PORT = Except.ok rx →
        ∃ i j, i < j ∧
          (main env).fst.get? i =
            some (MainEvent.serve "0.0.0.0" DEFAULT_SERVER_PORT) ∧
          (main env).fst.get? j =
            some (MainEvent.runNative "Cartographer - Rerun")) := by
  constructor
  · intro e he
    simp [main, he]
  · intro rx hrx
    refine ⟨2, 3, by decide, ?_⟩
    cases hr : env.runNative "Cartographer - Rerun" with
    | error e => simp [main, hrx, hr]
    | ok u => simp [main, hrx, hr]

/-- C7 witness: a failing-bind environment aborts startup with the error and
one bind attempt; a succeeding one binds before entering the render loop. -/
theorem main_bind_witness :
    main exEnvFail =
      ([MainEvent.setupLogging, MainEvent.installCrashHandlers,
        MainEvent.serve "0.0.0.0" DEFAULT_SERVER_PORT],
       Except.error "address in use")
    ∧ ∃ i j, i < j ∧
        (main exEnvOk).fst.get? i =
          some (MainEvent.serve "0.0.0.0" DEFAULT_SERVER_PORT) ∧
        (main exEnvOk).fst.get? j =
          some (MainEvent.runNative "Cartographer - Rerun") :=
  ⟨(main_bind exEnvFail).1 "address in use" rfl,
   (main_bind exEnvOk).2 1 rfl⟩

/-- C8: `format_arrow` is deterministic — two calls on the same value slice
yield identical output strings; it is a pure function of its argument. -/
theorem format_arrow_deterministic (v w : ArrowArray) (h : v = w) :
    format_arrow v = format_arrow w := by
  rw [h]

/-- C8 witness: two calls on the same concrete slice agree. -/
theorem format_arrow_deterministic_witness :
    format_arrow exSmall = format_arrow exSmall :=
  format_arrow_deterministic exSmall exSmall rfl

/-- C9: when store info is present, `entity_db_ui` draws the
"Application ID: <id>" label first, above the separator, the "Entities:"
heading and the entity tree. -/
theorem entity_db_ui_application_id (entity_db : EntityDb) (application_id : String)
    (h : entity_db.storeInfo = some application_id) :
    (entity_db_ui entity_db).fst =
      UiItem.label ("Application ID: " ++ application_id) ::
      UiItem.separator :: UiItem.strong "Entities:" ::
      [UiItem.scrollArea (entity_db.entityPaths.map (fun p =>
        UiItem.collapsing p (entity_ui entity_db log_time p).fst))] := by
  simp [entity_db_ui, h]

/-- C9 witness: the concrete recording carries application id
"cartographer" and the panel shows it above the entity tree. -/
theorem entity_db_ui_application_id_witness :
    (entity_db_ui exDb).fst =
      UiItem.label ("Application ID: " ++ "cartographer") ::
      UiItem.separator :: UiItem.strong "Entities:" ::
      [UiItem.scrollArea (exDb.entityPaths.map (fun p =>
        UiItem.collapsing p (entity_ui exDb log_time p).fst))] :=
  entity_db_ui_application_id exDb "cartographer" rfl

/-- C10: `format_arrow` reads only the total byte size and the element at
index 0: two arrays agreeing there format identically (elements past
index 0 are ignored), and an under-threshold array whose index-0 rendering
succeeds formats as exactly that index-0 display string. -/
theorem format_arrow_index_zero (v w : ArrowArray)
    (hsize : v.totalSizeBytes = w.totalSizeBytes)
    (helem : v.elems.get? 0 = w.elems.get? 0) :
    format_arrow v = format_arrow w
    ∧ (v.totalSizeBytes < 256 →
        ∀ s, get_display v "null" 0 = some s → format_arrow v = s) := by
  constructor
  · simp only [format_arrow, get_display, hsize, helem]
  · intro h s hs
    simp [format_arrow, h, hs]

/-- C10 witness: a two-element array formats identically to the one-element
array sharing its index-0 element and size; the output is that element's
display string, the second element being ignored. -/
theorem format_arrow_index_zero_witness :
    format_arrow exTwo = format_arrow exSmall ∧ format_arrow exTwo = "7" :=
  ⟨(format_arrow_index_zero exTwo exSmall rfl rfl).1,
   (format_arrow_index_zero exTwo exSmall rfl rfl).2 (by decide) "7" rfl⟩

end Carto2Rerun
